import Mathlib

/-!
Verification of the smart_water_meter repository.

Part 1 embeds the frontend helpers that are present in the source
(`static/js/api.js` and the dashboard utility file): `getCookie`,
`apiRequest`, the display formatters and `getDeviceStatusClass`.
Environment-dependent primitives of the browser (fetch, Intl
formatting, locale date rendering, decodeURIComponent) are passed as
function parameters; everything else follows the JavaScript line by
line.

Part 2 models the telemetry evaluator that the specification describes
(ingest with stale/non-monotonic rejection, leak / excessive-usage /
device-offline alerts with deduplication, and period billing).  That
backend code is not among the supplied files, so the definitions are
modelled from the specification text.
-/

/-- Leading-match test on character lists: `charsLead sub hay` is true
when `sub` occurs at the very front of `hay`. -/
def charsLead : List Char → List Char → Bool
  | [], _ => true
  | _ :: _, [] => false
  | c :: cs, d :: ds => c == d && charsLead cs ds

/-- Substring occurrence on character lists, scanning left to right. -/
def charsContain : List Char → List Char → Bool
  | [], sub => sub.isEmpty
  | c :: t, sub => charsLead sub (c :: t) || charsContain t sub

/-- JavaScript `hay.includes(sub)` for strings. -/
def strContains (hay sub : String) : Bool :=
  charsContain hay.toList sub.toList

/-- Abstract HTTP response as `apiRequest` observes it: `ok` flag,
numeric status, optional content-type header, the value `response.json()`
would produce, and the value `response.text()` would produce. -/
structure JsResponse (α : Type) where
  ok : Bool
  status : Nat
  contentType : Option String
  jsonBody : α
  textBody : String
  deriving DecidableEq

/-- Embedding of `apiRequest` from `static/js/api.js`.  The `fetch` call
is environmental, so its outcome is the argument: a network failure is
`Except.error`, a response is `Except.ok`.  A non-ok response throws
`HTTP error! status: N`; otherwise the body is JSON-parsed exactly when
the content-type header exists and includes `application/json`, else
returned as text.  The catch block only logs and re-throws, so every
failure propagates. -/
def apiRequest {α : Type} (fetchResult : Except String (JsResponse α)) :
    Except String (α ⊕ String) :=
  match fetchResult with
  | Except.error e => Except.error e
  | Except.ok resp =>
    if !resp.ok then
      Except.error ("HTTP error! status: " ++ toString resp.status)
    else
      match resp.contentType with
      | some ct =>
        if strContains ct "application/json" then Except.ok (Sum.inl resp.jsonBody)
        else Except.ok (Sum.inr resp.textBody)
      | none => Except.ok (Sum.inr resp.textBody)

/-- Embedding of `formatNumber` from the dashboard utilities.  A null or
undefined argument is `none`; the `Intl.NumberFormat` renderer is
environmental and passed as `intlNumber`. -/
def formatNumber (intlNumber : ℚ → Nat → String) (num : Option ℚ)
    (decimals : Nat) : String :=
  match num with
  | none => "-"
  | some q => intlNumber q decimals

/-- Embedding of `formatCurrency` from the dashboard utilities. -/
def formatCurrency (intlCurrency : ℚ → String) (amount : Option ℚ) : String :=
  match amount with
  | none => "$0.00"
  | some q => intlCurrency q

/-- JavaScript falsiness of an optional string: null, undefined and the
empty string are falsy. -/
def jsFalsyString : Option String → Bool
  | none => true
  | some s => s.isEmpty

/-- Embedding of `formatDateTime`; the locale rendering of the parsed
date is environmental and passed as `localeDateTime`. -/
def formatDateTime (localeDateTime : String → String)
    (dateString : Option String) : String :=
  if jsFalsyString dateString then "-" else localeDateTime (dateString.getD "")

/-- Embedding of `formatTime`; the locale rendering is environmental. -/
def formatTime (localeTime : String → String)
    (dateString : Option String) : String :=
  if jsFalsyString dateString then "-" else localeTime (dateString.getD "")

/-- Embedding of `getDeviceStatusClass` from the dashboard utilities.
Times are in milliseconds; a falsy `lastSeen` is `none`.  The gap in
minutes is `(now - t) / (1000 * 60)` exactly as in the source. -/
def getDeviceStatusClass (now : ℚ) (lastSeen : Option ℚ) : String :=
  match lastSeen with
  | none => "status-offline"
  | some t =>
    let diffMinutes := (now - t) / (1000 * 60)
    if diffMinutes < 5 then "status-online"
    else if diffMinutes < 30 then "status-warning"
    else "status-offline"

/-- Whitespace as `trim` sees it in a cookie entry. -/
def jsWhitespace (c : Char) : Bool :=
  c == ' ' || c == '\t' || c == '\n' || c == '\r'

/-- JavaScript `trim()` on a character list: strip whitespace from both
ends. -/
def trimChars (l : List Char) : List Char :=
  ((l.dropWhile jsWhitespace).reverse.dropWhile jsWhitespace).reverse

/-- JavaScript `split(';')` on a character list; `acc` holds the
current entry reversed.  An empty input yields one empty entry, as in
JavaScript. -/
def splitSemi (l : List Char) (acc : List Char) : List (List Char) :=
  match l with
  | [] => [acc.reverse]
  | c :: rest =>
    if c == ';' then acc.reverse :: splitSemi rest []
    else splitSemi rest (c :: acc)

/-- The cookie-entry test from `getCookie`: the trimmed entry's first
`name.length + 1` characters equal `name` followed by `=` (that is the
JavaScript `cookie.substring(0, name.length + 1) === name + '='`). -/
def cookieMatch (name : String) (c : List Char) : Bool :=
  (trimChars c).take (name.length + 1) == name.toList ++ ['=']

/-- The indexed for-loop of `getCookie` with its break: scan the split
entries and return the decoded value of the first match. -/
def getCookieLoop (decoder : String → String) (name : String) :
    List (List Char) → Option String
  | [] => none
  | c :: rest =>
    if cookieMatch name c then
      some (decoder (String.mk ((trimChars c).drop (name.length + 1))))
    else getCookieLoop decoder name rest

/-- Embedding of `getCookie` from `static/js/api.js`.  `docCookie` is
`document.cookie`; `decoder` is the environmental `decodeURIComponent`.
An empty cookie string short-circuits to null. -/
def getCookie (decoder : String → String) (docCookie name : String) :
    Option String :=
  if docCookie = "" then none
  else getCookieLoop decoder name (splitSemi docCookie.toList [])

/-- Restatement of `getCookie` in the specification's words: the decoded
value of the first semicolon-separated entry whose trimmed text begins
with `name` followed by `=`, null when the cookie string is empty or no
entry matches. -/
def getCookieFirstMatch (decoder : String → String) (docCookie name : String) :
    Option String :=
  if docCookie = "" then none
  else
    ((splitSemi docCookie.toList []).find? (cookieMatch name)).map
      (fun c => decoder (String.mk ((trimChars c).drop (name.length + 1))))

/-- Modelled from the spec: the alert kinds of the absent backend
evaluator (leak, excessive-usage, device-offline). -/
inductive AlertKind : Type
  | leak
  | excessiveUsage
  | deviceOffline
  deriving DecidableEq

/-- Modelled from the spec: an Alert record of the absent backend
(kind, device identifier, triggering value, threshold, opened
timestamp, nullable resolved timestamp). -/
structure Alert where
  kind : AlertKind
  device : String
  value : Int
  threshold : Int
  openedAt : Nat
  resolvedAt : Option Nat
  deriving DecidableEq

/-- Modelled from the spec: a BillLine of the absent backend (device,
period start/end, consumption delta, rate applied, computed cost). -/
structure BillLine where
  device : String
  periodStart : Nat
  periodEnd : Nat
  delta : Int
  rate : ℚ
  cost : ℚ
  deriving DecidableEq

/-- Modelled from the spec: the events the absent evaluator emits. -/
inductive Event : Type
  | alertOpened (a : Alert)
  | alertClosed (a : Alert)
  | billLine (b : BillLine)
  deriving DecidableEq

/-- Modelled from the spec: the typed rejection reasons of `ingest`. -/
inductive IngestError : Type
  | StaleReading
  | NonMonotonicReading
  deriving DecidableEq

/-- Modelled from the spec: one telemetry Reading (device identifier,
flow rate in liters per hour, cumulative consumption in liters,
cumulative pulse count, timestamp in minutes). -/
structure Reading where
  device : String
  flow : Int
  consumption : Int
  pulses : Nat
  timestamp : Nat
  deriving DecidableEq

/-- Modelled from the spec: the configuration surface of the absent
evaluator (thresholds, continuous-flow duration, cool-down, rolling
usage window length, offline threshold, billing cycle, rate per liter,
optional tiered rate, tax and discount rates). -/
structure Config where
  leakThresholdLph : Int
  continuousFlowDuration : Nat
  leakCoolDown : Nat
  excessiveUsageThresholdLpd : Int
  usageWindowLen : Nat
  offlineThreshold : Nat
  billingCycle : Nat
  ratePerLiter : ℚ
  tieredRate : Option (Int × ℚ)
  taxRate : ℚ
  discountRate : ℚ
  deriving DecidableEq

/-- Modelled from the spec: the per-device state of the absent
evaluator: last-seen, cumulative consumption and pulse count, the
continuous non-zero-flow window (newest first), the rolling daily
usage window of (timestamp, cumulative consumption) samples (newest
first), the start of a continuous below-threshold stretch for the leak
cool-down, the device's alert records, and the current billing period
start with the cumulative consumption at that boundary. -/
structure DeviceState where
  lastSeen : Option Nat
  cumConsumption : Int
  cumPulse : Nat
  flowWindow : List (Nat × Int)
  usageWindow : List (Nat × Int)
  belowThresholdSince : Option Nat
  alerts : List Alert
  periodStart : Nat
  periodStartConsumption : Int
  deriving DecidableEq

/-- Modelled from the spec: the evaluator's keyed per-device state
table, as an association list from device identifier to state. -/
structure EvalState where
  devices : List (String × DeviceState)
  deriving DecidableEq

/-- The empty evaluator state. -/
def EvalState.initial : EvalState := ⟨[]⟩

/-- Association-list lookup used by the evaluator. -/
def lookupList (l : List (String × DeviceState)) (id : String) :
    Option DeviceState :=
  (l.find? (fun p => p.1 == id)).map Prod.snd

/-- Lookup of a device's state in the evaluator state. -/
def lookupDevice (s : EvalState) (id : String) : Option DeviceState :=
  lookupList s.devices id

/-- Keyed update of the device table: replace the entry for `id`, or
append a new entry when absent. -/
def replaceOrInsert (l : List (String × DeviceState)) (id : String)
    (d : DeviceState) : List (String × DeviceState) :=
  match l with
  | [] => [(id, d)]
  | (k, v) :: rest =>
    if k == id then (id, d) :: rest else (k, v) :: replaceOrInsert rest id d

/-- An alert is open while its resolved timestamp is null. -/
def Alert.isOpen (a : Alert) : Bool := a.resolvedAt.isNone

/-- Number of open alerts of a given kind in an alert list. -/
def countOpen (l : List Alert) (k : AlertKind) : Nat :=
  (l.filter (fun a => a.kind == k && a.isOpen)).length

/-- Whether some open alert of the given kind exists. -/
def hasOpen (l : List Alert) (k : AlertKind) : Bool :=
  l.any (fun a => a.kind == k && a.isOpen)

/-- Refresh the open alerts of a kind with a new triggering value. -/
def refreshOpen (l : List Alert) (k : AlertKind) (v : Int) : List Alert :=
  l.map (fun a => if a.kind == k && a.isOpen then { a with value := v } else a)

/-- Modelled from the spec: deduplicated alert opening of the absent
evaluator — when an open alert of the kind already exists it is
refreshed and no event is emitted, otherwise the new alert record is
added and an alert-opened event is emitted. -/
def openAlertE (l : List Alert) (a : Alert) : List Alert × List Event :=
  if hasOpen l a.kind then (refreshOpen l a.kind a.value, [])
  else (a :: l, [Event.alertOpened a])

/-- Close every open alert of a kind at time `t`. -/
def closeOpen (l : List Alert) (k : AlertKind) (t : Nat) : List Alert :=
  l.map (fun a =>
    if a.kind == k && a.isOpen then { a with resolvedAt := some t } else a)

/-- Alert closing together with its alert-closed events. -/
def closeOpenE (l : List Alert) (k : AlertKind) (t : Nat) :
    List Alert × List Event :=
  (closeOpen l k t,
   (l.filter (fun a => a.kind == k && a.isOpen)).map
     (fun a => Event.alertClosed { a with resolvedAt := some t }))

/-- Modelled from the spec: prune the rolling usage window to the
samples of the last `winLen` minutes. -/
def pruneUsage (winLen t : Nat) (w : List (Nat × Int)) : List (Nat × Int) :=
  w.filter (fun p => t ≤ p.1 + winLen)

/-- Modelled from the spec: the rolling consumption delta — current
cumulative consumption minus the oldest sample in the window. -/
def rollingDelta (consumption : Int) (w : List (Nat × Int)) : Int :=
  match w.getLast? with
  | none => 0
  | some p => consumption - p.2

/-- Modelled from the spec: the leak condition of the absent evaluator
at time `t` over the continuous non-zero-flow window `w` (newest
first): flow has stayed above zero at least the continuous-flow
duration, and the sustained rate exceeds the leak threshold throughout
the stretch.  The specification's own scenario opens the alert exactly
when the elapsed stretch reaches the duration. -/
def leakCondition (cfg : Config) (t : Nat) (w : List (Nat × Int)) : Bool :=
  match w.getLast? with
  | none => false
  | some p =>
    decide (cfg.continuousFlowDuration ≤ t - p.1) &&
      w.all (fun q => decide (cfg.leakThresholdLph < q.2))

/-- Modelled from the spec: start of the continuous at-or-below
threshold stretch, used for the leak cool-down. -/
def updateBelowSince (cfg : Config) (t : Nat) (flow : Int)
    (old : Option Nat) : Option Nat :=
  if flow ≤ cfg.leakThresholdLph then some (old.getD t) else none

/-- Modelled from the spec: the leak alert auto-close condition — flow
dropped to zero, or stayed at or below the threshold a full cool-down
period. -/
def leakCloseCondition (cfg : Config) (t : Nat) (flow : Int)
    (belowSince : Option Nat) : Bool :=
  decide (flow = 0) ||
    (match belowSince with
     | none => false
     | some t0 => decide (cfg.leakCoolDown ≤ t - t0))

/-- Modelled from the spec: the optional tiered-rate adjustment, second
stage of the billing order. -/
def applyTiered (cfg : Config) (delta : Int) (cost : ℚ) : ℚ :=
  match cfg.tieredRate with
  | none => cost
  | some tier =>
    if tier.1 < delta then cost + ((delta - tier.1 : Int) : ℚ) * tier.2 else cost

/-- Modelled from the spec: the tax adjustment, third billing stage. -/
def applyTax (cfg : Config) (cost : ℚ) : ℚ := cost * (1 + cfg.taxRate)

/-- Modelled from the spec: the discount adjustment, last billing
stage. -/
def applyDiscount (cfg : Config) (cost : ℚ) : ℚ := cost * (1 - cfg.discountRate)

/-- Modelled from the spec: the cost of a period's consumption delta —
base cost (delta times rate per liter), then tiered adjustment, then
tax, then discount, in that fixed order. -/
def computeCost (cfg : Config) (delta : Int) : ℚ :=
  applyDiscount cfg (applyTax cfg (applyTiered cfg delta ((delta : ℚ) * cfg.ratePerLiter)))

/-- Modelled from the spec: the BillLine emitted at a period boundary,
from the consumption delta since the previous boundary. -/
def mkBillLine (cfg : Config) (d : DeviceState) (r : Reading) : BillLine :=
  { device := r.device
    periodStart := d.periodStart
    periodEnd := r.timestamp
    delta := r.consumption - d.periodStartConsumption
    rate := cfg.ratePerLiter
    cost := computeCost cfg (r.consumption - d.periodStartConsumption) }

/-- Modelled from the spec: processing of an accepted reading — update
last-seen and cumulative values, extend or reset the continuous-flow
window, open/refresh or auto-close the leak alert, maintain the rolling
daily usage window and the excessive-usage alert, close any open
device-offline alert, and emit a BillLine at a billing period
boundary. -/
def acceptReading (cfg : Config) (d : DeviceState) (r : Reading) :
    DeviceState × List Event :=
  let p0 := closeOpenE d.alerts AlertKind.deviceOffline r.timestamp
  let fw := if 0 < r.flow then (r.timestamp, r.flow) :: d.flowWindow else []
  let bs := updateBelowSince cfg r.timestamp r.flow d.belowThresholdSince
  let p1 :=
    if leakCondition cfg r.timestamp fw then
      openAlertE p0.1
        { kind := AlertKind.leak, device := r.device, value := r.flow,
          threshold := cfg.leakThresholdLph, openedAt := r.timestamp,
          resolvedAt := none }
    else if leakCloseCondition cfg r.timestamp r.flow bs then
      closeOpenE p0.1 AlertKind.leak r.timestamp
    else (p0.1, [])
  let uw := pruneUsage cfg.usageWindowLen r.timestamp
    ((r.timestamp, r.consumption) :: d.usageWindow)
  let delta24 := rollingDelta r.consumption uw
  let p2 :=
    if cfg.excessiveUsageThresholdLpd < delta24 then
      openAlertE p1.1
        { kind := AlertKind.excessiveUsage, device := r.device,
          value := delta24, threshold := cfg.excessiveUsageThresholdLpd,
          openedAt := r.timestamp, resolvedAt := none }
    else (p1.1, [])
  let billDue := decide (d.periodStart + cfg.billingCycle ≤ r.timestamp)
  let billEvts := if billDue then [Event.billLine (mkBillLine cfg d r)] else []
  ({ lastSeen := some r.timestamp
     cumConsumption := r.consumption
     cumPulse := r.pulses
     flowWindow := fw
     usageWindow := uw
     belowThresholdSince := bs
     alerts := p2.1
     periodStart := if billDue then r.timestamp else d.periodStart
     periodStartConsumption :=
       if billDue then r.consumption else d.periodStartConsumption },
   p0.2 ++ p1.2 ++ p2.2 ++ billEvts)

/-- Modelled from the spec: the staleness gate — a reading whose
timestamp is at or before the device's last accepted timestamp is
stale (this last-processed-timestamp check also detects replays). -/
def staleCheck (d : DeviceState) (r : Reading) : Bool :=
  match d.lastSeen with
  | none => false
  | some t => decide (r.timestamp ≤ t)

/-- Modelled from the spec: the monotonicity gate — a reading whose
cumulative consumption or pulse count decreases relative to stored
state is rejected. -/
def nonMonotonicCheck (d : DeviceState) (r : Reading) : Bool :=
  decide (r.consumption < d.cumConsumption) || decide (r.pulses < d.cumPulse)

/-- Modelled from the spec: the state of a device created on its first
reading, before that reading is applied. -/
def freshDevice (r : Reading) : DeviceState :=
  { lastSeen := none
    cumConsumption := r.consumption
    cumPulse := r.pulses
    flowWindow := []
    usageWindow := []
    belowThresholdSince := none
    alerts := []
    periodStart := r.timestamp
    periodStartConsumption := r.consumption }

/-- Modelled from the spec: `ingest(reading)` of the absent evaluator.
The pair holds the evaluator state after the call and either the
emitted events or the typed rejection; a rejected reading leaves the
state exactly as it was. -/
def ingest (cfg : Config) (s : EvalState) (r : Reading) :
    EvalState × Except IngestError (List Event) :=
  let d := (lookupDevice s r.device).getD (freshDevice r)
  if staleCheck d r then (s, Except.error IngestError.StaleReading)
  else if nonMonotonicCheck d r then (s, Except.error IngestError.NonMonotonicReading)
  else
    let p := acceptReading cfg d r
    (⟨replaceOrInsert s.devices r.device p.1⟩, Except.ok p.2)

/-- Modelled from the spec: offline classification of the periodic
sweep — a device with no last-seen is offline, otherwise it is offline
exactly when the gap between the sweep time and last-seen exceeds the
configured offline threshold. -/
def isOffline (cfg : Config) (now : Nat) (lastSeen : Option Nat) : Bool :=
  match lastSeen with
  | none => true
  | some t => decide (cfg.offlineThreshold < now - t)

/-- Modelled from the spec: the sweep's action on one device — open (or
refresh) a device-offline alert when the device is classified offline,
and touch nothing otherwise. -/
def sweepDevice (cfg : Config) (now : Nat) (id : String) (d : DeviceState) :
    DeviceState × List Event :=
  if isOffline cfg now d.lastSeen then
    let p := openAlertE d.alerts
      { kind := AlertKind.deviceOffline, device := id, value := 0,
        threshold := (cfg.offlineThreshold : Int), openedAt := now,
        resolvedAt := none }
    ({ d with alerts := p.1 }, p.2)
  else (d, [])

/-- Modelled from the spec: the periodic offline sweep over the whole
device table. -/
def offlineSweep (cfg : Config) (now : Nat) (s : EvalState) :
    EvalState × List Event :=
  (⟨s.devices.map (fun p => (p.1, (sweepDevice cfg now p.1 p.2).1))⟩,
   (s.devices.map (fun p => (sweepDevice cfg now p.1 p.2).2)).flatten)

/-- Reachable evaluator states: the initial empty state, closed under
`ingest` steps and offline sweeps. -/
inductive Reachable (cfg : Config) : EvalState → Prop
  | init : Reachable cfg EvalState.initial
  | step (s : EvalState) (r : Reading) :
      Reachable cfg s → Reachable cfg (ingest cfg s r).1
  | sweep (s : EvalState) (now : Nat) :
      Reachable cfg s → Reachable cfg (offlineSweep cfg now s).1

/-- Configuration of the specification's leak scenario: leak threshold
50 L/h, continuous-flow duration 10 minutes; the other thresholds are
set far away so only the leak rule can fire. -/
def cfgM : Config :=
  { leakThresholdLph := 50, continuousFlowDuration := 10, leakCoolDown := 5,
    excessiveUsageThresholdLpd := 1000000, usageWindowLen := 1440,
    offlineThreshold := 30, billingCycle := 1000000, ratePerLiter := 2/1000,
    tieredRate := none, taxRate := 0, discountRate := 0 }

/-- Configuration of the specification's billing scenario: rate 0.002
dollars per liter, no tier, no tax, no discount, ten-minute cycle. -/
def cfgBill : Config :=
  { leakThresholdLph := 50, continuousFlowDuration := 10, leakCoolDown := 5,
    excessiveUsageThresholdLpd := 1000000, usageWindowLen := 1440,
    offlineThreshold := 30, billingCycle := 10, ratePerLiter := 2/1000,
    tieredRate := none, taxRate := 0, discountRate := 0 }

/-- The scenario readings for device D1: one reading per minute at
flow 60 L/h, so cumulative consumption grows one liter per minute. -/
def readingM (n : Nat) : Reading :=
  { device := "D1", flow := 60, consumption := (n : Int), pulses := n,
    timestamp := n }

/-- Evaluator state after ingesting the scenario readings at
t = 0 .. n. -/
def stateAfterM (n : Nat) : EvalState :=
  (List.range (n + 1)).foldl (fun s i => (ingest cfgM s (readingM i)).1)
    EvalState.initial

/-- Number of open leak alerts for D1 after the ingest at t = n. -/
def leakOpenCount (n : Nat) : Nat :=
  countOpen
    (((lookupDevice (stateAfterM n) "D1").getD (freshDevice (readingM 0))).alerts)
    AlertKind.leak

/-- State after the first scenario reading. -/
def s1M : EvalState := (ingest cfgM EvalState.initial (readingM 0)).1

/-- D1's device state after the first scenario reading. -/
def d1M : DeviceState := (lookupDevice s1M "D1").getD (freshDevice (readingM 0))

/-- A replayed (hence stale) reading: same device, same timestamp. -/
def rStaleM : Reading := readingM 0

/-- A fresh-timestamp reading whose cumulative consumption went down,
as after a device reset. -/
def rResetM : Reading :=
  { device := "D1", flow := 0, consumption := -1, pulses := 0, timestamp := 5 }

/-- A concrete open leak alert used to exercise deduplication. -/
def aLeakM : Alert :=
  { kind := AlertKind.leak, device := "D1", value := 60, threshold := 50,
    openedAt := 3, resolvedAt := none }

/-- A concrete device at a billing boundary. -/
def dBillM : DeviceState := freshDevice (readingM 0)

/-- The reading that crosses `dBillM`'s first billing period under
`cfgBill` (period start 0, cycle 10). -/
def rBillM : Reading :=
  { device := "D1", flow := 0, consumption := 1000, pulses := 1000,
    timestamp := 10 }

/-- The break-on-first-match loop of `getCookie` computes the decoded
value of the first matching entry. -/
theorem getCookieLoop_eq_find (decoder : String → String) (name : String)
    (l : List (List Char)) :
    getCookieLoop decoder name l =
      (l.find? (cookieMatch name)).map
        (fun c => decoder (String.mk ((trimChars c).drop (name.length + 1)))) := by
  induction l with
  | nil => rfl
  | cons c rest ih =>
    by_cases h : cookieMatch name c
    · simp [getCookieLoop, List.find?_cons_of_pos, h]
    · simp only [Bool.not_eq_true] at h
      simp [getCookieLoop, List.find?_cons_of_neg, h, ih]

/-- Claim C10: for every cookie string and name, `getCookie` returns
`decodeURIComponent` of the value of the first semicolon-separated
entry whose trimmed text begins with the name followed by `=`, and
returns null when the cookie string is empty or no entry matches. -/
theorem getCookie_eq_first_match :
    (∀ (decoder : String → String) (docCookie name : String),
      getCookie decoder docCookie name =
        getCookieFirstMatch decoder docCookie name) ∧
    (∀ (decoder : String → String) (name : String),
      getCookie decoder "" name = none) ∧
    (∀ (decoder : String → String) (docCookie name : String),
      (splitSemi docCookie.toList []).find? (cookieMatch name) = none →
        getCookie decoder docCookie name = none) := by
  refine ⟨?_, ?_, ?_⟩
  · intro decoder docCookie name
    unfold getCookie getCookieFirstMatch
    by_cases h : docCookie = ""
    · simp [h]
    · simp [h, getCookieLoop_eq_find]
  · intro decoder name
    simp [getCookie]
  · intro decoder docCookie name h
    unfold getCookie
    by_cases hd : docCookie = ""
    · simp [hd]
    · rw [if_neg hd, getCookieLoop_eq_find, h]
      rfl

/-- Claim C10 witness: a concrete cookie string with a leading space
and an earlier non-matching entry. -/
theorem getCookie_eq_first_match_witness :
    getCookie (fun s => s) "a=1; csrftoken=x7" "csrftoken" =
      getCookieFirstMatch (fun s => s) "a=1; csrftoken=x7" "csrftoken" ∧
    getCookie (fun s => s) "" "csrftoken" = none ∧
    getCookie (fun s => s) "a=1; csrftoken=x7" "csrftoken" = some "x7" :=
  ⟨getCookie_eq_first_match.1 (fun s => s) "a=1; csrftoken=x7" "csrftoken",
   getCookie_eq_first_match.2.1 (fun s => s) "csrftoken",
   by decide⟩

/-- Claim C8: `apiRequest` re-throws every failure; a non-ok response
yields an error carrying the numeric status; an ok response is
JSON-parsed exactly when the content-type header exists and includes
`application/json`, and returned as raw text otherwise. -/
theorem apiRequest_behaviour :
    (∀ (α : Type) (e : String),
      apiRequest (α := α) (Except.error e) = Except.error e) ∧
    (∀ (α : Type) (resp : JsResponse α), resp.ok = false →
      apiRequest (Except.ok resp) =
        Except.error ("HTTP error! status: " ++ toString resp.status)) ∧
    (∀ (α : Type) (resp : JsResponse α), resp.ok = true →
      (apiRequest (Except.ok resp) = Except.ok (Sum.inl resp.jsonBody) ↔
        ∃ ct, resp.contentType = some ct ∧
          strContains ct "application/json" = true)) ∧
    (∀ (α : Type) (resp : JsResponse α), resp.ok = true →
      (¬ ∃ ct, resp.contentType = some ct ∧
          strContains ct "application/json" = true) →
        apiRequest (Except.ok resp) = Except.ok (Sum.inr resp.textBody)) := by
  refine ⟨?_, ?_, ?_, ?_⟩
  · intro α e; rfl
  · intro α resp h
    simp [apiRequest, h]
  · intro α resp h
    rcases resp with ⟨ok, status, ct, jb, tb⟩
    simp only at h
    subst h
    cases ct with
    | none => simp [apiRequest]
    | some c =>
      by_cases hc : strContains c "application/json" = true
      · simp [apiRequest, hc]
      · simp [apiRequest, hc]
  · intro α resp h hct
    rcases resp with ⟨ok, status, ct, jb, tb⟩
    simp only at h
    subst h
    cases ct with
    | none => simp [apiRequest]
    | some c =>
      simp only [Option.some.injEq, not_exists, not_and] at hct
      have hc := hct c rfl
      simp only [Bool.not_eq_true] at hc
      simp [apiRequest, hc]

/-- Claim C8 witness: a network failure, a 404 response, a JSON
response and a plain-text response, at concrete inputs. -/
theorem apiRequest_behaviour_witness :
    apiRequest (α := Nat) (Except.error "network down") =
      Except.error "network down" ∧
    apiRequest (α := Nat)
        (Except.ok ⟨false, 404, some "text/html", 7, "nope"⟩) =
      Except.error ("HTTP error! status: " ++ toString 404) ∧
    apiRequest (α := Nat)
        (Except.ok ⟨true, 200, some "application/json; charset=utf-8", 7, "raw"⟩) =
      Except.ok (Sum.inl 7) ∧
    apiRequest (α := Nat)
        (Except.ok ⟨true, 200, some "text/html", 7, "raw"⟩) =
      Except.ok (Sum.inr "raw") :=
  ⟨apiRequest_behaviour.1 Nat "network down",
   apiRequest_behaviour.2.1 Nat ⟨false, 404, some "text/html", 7, "nope"⟩ rfl,
   (apiRequest_behaviour.2.2.1 Nat
      ⟨true, 200, some "application/json; charset=utf-8", 7, "raw"⟩ rfl).mpr
     ⟨"application/json; charset=utf-8", rfl, by decide⟩,
   apiRequest_behaviour.2.2.2 Nat ⟨true, 200, some "text/html", 7, "raw"⟩ rfl
     (by decide)⟩

/-- Claim C9: the display formatters are total on missing input —
null or undefined gives `-` for `formatNumber`, `$0.00` for
`formatCurrency`, and any falsy date string gives `-` for
`formatDateTime` and `formatTime`. -/
theorem formatters_missing_input :
    (∀ (intlNumber : ℚ → Nat → String) (decimals : Nat),
      formatNumber intlNumber none decimals = "-") ∧
    (∀ intlCurrency : ℚ → String, formatCurrency intlCurrency none = "$0.00") ∧
    (∀ (localeDateTime : String → String) (ds : Option String),
      jsFalsyString ds = true → formatDateTime localeDateTime ds = "-") ∧
    (∀ (localeTime : String → String) (ds : Option String),
      jsFalsyString ds = true → formatTime localeTime ds = "-") := by
  refine ⟨fun _ _ => rfl, fun _ => rfl, ?_, ?_⟩
  · intro f ds h; simp [formatDateTime, h]
  · intro f ds h; simp [formatTime, h]

/-- Claim C9 witness: the four formatters applied to absent input. -/
theorem formatters_missing_input_witness :
    formatNumber (fun _ _ => "9") none 2 = "-" ∧
    formatCurrency (fun _ => "$9.00") none = "$0.00" ∧
    formatDateTime (fun s => s) none = "-" ∧
    formatTime (fun s => s) (some "") = "-" :=
  ⟨formatters_missing_input.1 (fun _ _ => "9") 2,
   formatters_missing_input.2.1 (fun _ => "$9.00"),
   formatters_missing_input.2.2.1 (fun s => s) none rfl,
   formatters_missing_input.2.2.2 (fun s => s) (some "") (by decide)⟩

/-- Claim C7: offline determination is a function of the gap between
current time and last-seen — the sweep classifies a device offline
exactly when the gap exceeds the configured threshold, a device with
no last-seen is offline, and a non-offline device is untouched by the
sweep; in the supplied frontend code the classification is
`getDeviceStatusClass`, which returns `status-online`, `status-warning`
or `status-offline` purely from the last-seen gap in minutes. -/
theorem offline_gap_classification :
    (∀ (cfg : Config) (now : Nat), isOffline cfg now none = true) ∧
    (∀ (cfg : Config) (now t : Nat),
      isOffline cfg now (some t) = true ↔ cfg.offlineThreshold < now - t) ∧
    (∀ (cfg : Config) (now : Nat) (id : String) (d : DeviceState),
      isOffline cfg now d.lastSeen = false → sweepDevice cfg now id d = (d, [])) ∧
    (∀ now : ℚ, getDeviceStatusClass now none = "status-offline") ∧
    (∀ now t : ℚ, getDeviceStatusClass now (some t) = "status-online" ↔
      (now - t) / (1000 * 60) < 5) ∧
    (∀ now t : ℚ, getDeviceStatusClass now (some t) = "status-warning" ↔
      (5 ≤ (now - t) / (1000 * 60) ∧ (now - t) / (1000 * 60) < 30)) ∧
    (∀ now t : ℚ, getDeviceStatusClass now (some t) = "status-offline" ↔
      30 ≤ (now - t) / (1000 * 60)) := by
  refine ⟨fun _ _ => rfl, ?_, ?_, fun _ => rfl, ?_, ?_, ?_⟩
  · intro cfg now t
    simp [isOffline]
  · intro cfg now id d h
    simp [sweepDevice, h]
  · intro now t
    unfold getDeviceStatusClass
    dsimp only
    split_ifs with h1 h2
    · simp [h1]
    · constructor
      · intro he; exact absurd he (by decide)
      · intro hlt; exact absurd hlt h1
    · constructor
      · intro he; exact absurd he (by decide)
      · intro hlt; exact absurd hlt h1
  · intro now t
    unfold getDeviceStatusClass
    dsimp only
    split_ifs with h1 h2
    · constructor
      · intro he; exact absurd he (by decide)
      · intro hc; linarith [hc.1]
    · exact iff_of_true rfl ⟨le_of_not_lt h1, h2⟩
    · constructor
      · intro he; exact absurd he (by decide)
      · intro hc; exact absurd hc.2 h2
  · intro now t
    unfold getDeviceStatusClass
    dsimp only
    split_ifs with h1 h2
    · constructor
      · intro he; exact absurd he (by decide)
      · intro hge; linarith
    · constructor
      · intro he; exact absurd he (by decide)
      · intro hge; exact absurd (lt_of_le_of_lt hge h2) (by norm_num)
    · exact iff_of_true rfl (le_of_not_lt h2)

/-- Claim C7 witness: a never-seen device is offline, a fresh device is
untouched by the sweep, and the frontend classifies a missing
last-seen as offline. -/
theorem offline_gap_classification_witness :
    isOffline cfgM 100 none = true ∧
    sweepDevice cfgM 5 "D1" d1M = (d1M, []) ∧
    getDeviceStatusClass 0 none = "status-offline" :=
  ⟨offline_gap_classification.1 cfgM 100,
   offline_gap_classification.2.2.1 cfgM 5 "D1" d1M (by decide),
   offline_gap_classification.2.2.2.1 0⟩

/-- Claim C1: a reading whose timestamp is at or before the device's
last accepted timestamp makes `ingest` return the StaleReading error
with the evaluator state — every device's last-seen, cumulative
values, windows and alerts — exactly as it was. -/
theorem stale_reading_rejected (cfg : Config) (s : EvalState) (r : Reading)
    (d : DeviceState) (t : Nat) (hd : lookupDevice s r.device = some d)
    (ht : d.lastSeen = some t) (hle : r.timestamp ≤ t) :
    ingest cfg s r = (s, Except.error IngestError.StaleReading) := by
  have hs : staleCheck d r = true := by simp [staleCheck, ht, hle]
  unfold ingest
  rw [hd]
  simp [hs]

/-- Claim C1 witness: replaying D1's reading at t = 0 into the state it
produced is rejected as stale and changes nothing. -/
theorem stale_reading_rejected_witness :
    ingest cfgM s1M rStaleM = (s1M, Except.error IngestError.StaleReading) :=
  stale_reading_rejected cfgM s1M rStaleM d1M 0 (by decide) (by decide)
    (by decide)

/-- Claim C2: a reading whose cumulative consumption or pulse count is
strictly below the stored cumulative value is never accepted — the
state is unchanged, the result is a typed error, and whenever the
reading passes the staleness gate that error is NonMonotonicReading. -/
theorem non_monotonic_rejected (cfg : Config) (s : EvalState) (r : Reading)
    (d : DeviceState) (hd : lookupDevice s r.device = some d)
    (hdec : r.consumption < d.cumConsumption ∨ r.pulses < d.cumPulse) :
    (ingest cfg s r).1 = s ∧
    ((ingest cfg s r).2 = Except.error IngestError.StaleReading ∨
      (ingest cfg s r).2 = Except.error IngestError.NonMonotonicReading) ∧
    (staleCheck d r = false →
      (ingest cfg s r).2 = Except.error IngestError.NonMonotonicReading) := by
  have hnm : nonMonotonicCheck d r = true := by
    rcases hdec with h | h <;> simp [nonMonotonicCheck, h]
  unfold ingest
  rw [hd]
  rcases hsc : staleCheck d r with _ | _
  · simp [hsc, hnm]
  · simp [hsc, hnm]

/-- Claim C2 witness: after D1's first reading, a fresh-timestamp
reading whose cumulative consumption dropped to -1 is rejected as
non-monotonic without touching the state. -/
theorem non_monotonic_rejected_witness :
    (ingest cfgM s1M rResetM).1 = s1M ∧
    (ingest cfgM s1M rResetM).2 = Except.error IngestError.NonMonotonicReading :=
  ⟨(non_monotonic_rejected cfgM s1M rResetM d1M (by decide)
      (Or.inl (by decide))).1,
   (non_monotonic_rejected cfgM s1M rResetM d1M (by decide)
      (Or.inl (by decide))).2.2 (by decide)⟩

/-- Keyed update followed by lookup of the same key yields the new
state. -/
theorem lookupList_replaceOrInsert (l : List (String × DeviceState))
    (id : String) (d : DeviceState) :
    lookupList (replaceOrInsert l id d) id = some d := by
  induction l with
  | nil => simp [replaceOrInsert, lookupList, List.find?]
  | cons p rest ih =>
    rcases p with ⟨k, v⟩
    by_cases h : (k == id) = true
    · simp [replaceOrInsert, h, lookupList, List.find?]
    · rw [Bool.not_eq_true] at h
      simp only [replaceOrInsert, h, Bool.false_eq_true, if_false]
      simp only [lookupList, List.find?] at ih ⊢
      rw [h]
      exact ih

/-- A stale reading is rejected with the state unchanged. -/
theorem ingest_of_stale (cfg : Config) (s : EvalState) (r : Reading)
    (hs : staleCheck ((lookupDevice s r.device).getD (freshDevice r)) r = true) :
    ingest cfg s r = (s, Except.error IngestError.StaleReading) := by
  unfold ingest
  simp [hs]

/-- A reading that passes both gates is accepted: the device table is
updated with the processed device state and the events are emitted. -/
theorem ingest_of_accepted (cfg : Config) (s : EvalState) (r : Reading)
    (h1 : staleCheck ((lookupDevice s r.device).getD (freshDevice r)) r = false)
    (h2 : nonMonotonicCheck ((lookupDevice s r.device).getD (freshDevice r)) r
      = false) :
    ingest cfg s r =
      (⟨replaceOrInsert s.devices r.device
          (acceptReading cfg ((lookupDevice s r.device).getD (freshDevice r)) r).1⟩,
       Except.ok
         (acceptReading cfg ((lookupDevice s r.device).getD (freshDevice r)) r).2) := by
  unfold ingest
  simp [h1, h2]

/-- Claim C5: replaying the identical accepted reading is a no-op — the
second `ingest` is caught by the last-processed-timestamp check, the
state stays exactly the state after the first ingestion, and no Alert
or BillLine event is emitted. -/
theorem replay_is_noop (cfg : Config) (s : EvalState) (r : Reading)
    (h1 : staleCheck ((lookupDevice s r.device).getD (freshDevice r)) r = false)
    (h2 : nonMonotonicCheck ((lookupDevice s r.device).getD (freshDevice r)) r
      = false) :
    ingest cfg (ingest cfg s r).1 r =
      ((ingest cfg s r).1, Except.error IngestError.StaleReading) := by
  have hacc := ingest_of_accepted cfg s r h1 h2
  have hlook : lookupDevice (ingest cfg s r).1 r.device =
      some (acceptReading cfg ((lookupDevice s r.device).getD (freshDevice r)) r).1 := by
    rw [hacc]
    exact lookupList_replaceOrInsert _ _ _
  apply ingest_of_stale
  rw [hlook]
  have hseen : (acceptReading cfg ((lookupDevice s r.device).getD (freshDevice r)) r).1.lastSeen
      = some r.timestamp := rfl
  simp [staleCheck, hseen]

/-- Claim C5 witness: ingesting D1's t = 0 reading twice from the empty
state — the replay is detected and the state after both calls is the
state after the first. -/
theorem replay_is_noop_witness :
    ingest cfgM (ingest cfgM EvalState.initial (readingM 0)).1 (readingM 0) =
      ((ingest cfgM EvalState.initial (readingM 0)).1,
       Except.error IngestError.StaleReading) :=
  replay_is_noop cfgM EvalState.initial (readingM 0) (by decide) (by decide)

/-- Claim C6: with leak threshold 50 L/h and continuous-flow duration
10 minutes, D1 reading flow 60 L/h once per minute has no open leak
alert after any ingest before t = 10, and exactly one open leak alert
from the ingest at t = 10 on (the later qualifying readings refresh
it, they do not duplicate it). -/
theorem leak_alert_opens_at_ten :
    ((List.range 10).all (fun n => leakOpenCount n == 0)) = true ∧
    leakOpenCount 10 = 1 ∧ leakOpenCount 11 = 1 ∧ leakOpenCount 12 = 1 :=
  ⟨by decide, by decide, by decide, by decide⟩

/-- Claim C4: the cost of a period is computed from the consumption
delta since the previous boundary in the fixed order base cost, tiered
adjustment, tax, discount; `ingest` emits the corresponding BillLine
exactly at a period boundary; and at rate 0.002 dollars per liter a
1000-liter delta costs exactly 2 dollars before tax and discount. -/
theorem billline_cost_fixed_order :
    (∀ (cfg : Config) (delta : Int),
      computeCost cfg delta =
        applyDiscount cfg (applyTax cfg (applyTiered cfg delta
          ((delta : ℚ) * cfg.ratePerLiter)))) ∧
    (∀ (cfg : Config) (d : DeviceState) (r : Reading),
      d.periodStart + cfg.billingCycle ≤ r.timestamp →
      Event.billLine (mkBillLine cfg d r) ∈ (acceptReading cfg d r).2) ∧
    applyTiered cfgBill 1000 ((1000 : ℚ) * cfgBill.ratePerLiter) = 2 ∧
    computeCost cfgBill 1000 = 2 := by
  refine ⟨fun _ _ => rfl, ?_, ?_, ?_⟩
  · intro cfg d r h
    have hd : decide (d.periodStart + cfg.billingCycle ≤ r.timestamp) = true :=
      decide_eq_true h
    unfold acceptReading
    simp [hd, List.mem_append]
  · norm_num [applyTiered, cfgBill]
  · norm_num [computeCost, applyTiered, applyTax, applyDiscount, cfgBill]

/-- Claim C4 witness: a fresh device under `cfgBill` crossing its first
period boundary at t = 10 gets its BillLine emitted, and the concrete
1000-liter scenario costs exactly 2 dollars. -/
theorem billline_cost_fixed_order_witness :
    Event.billLine (mkBillLine cfgBill dBillM rBillM) ∈
      (acceptReading cfgBill dBillM rBillM).2 ∧
    computeCost cfgBill 1000 = 2 :=
  ⟨billline_cost_fixed_order.2.1 cfgBill dBillM rBillM (by decide),
   billline_cost_fixed_order.2.2.2⟩

/-- Unfolding of `countOpen` over a cons cell. -/
theorem countOpen_cons (a : Alert) (l : List Alert) (k : AlertKind) :
    countOpen (a :: l) k =
      (if (a.kind == k && a.isOpen) = true then 1 else 0) + countOpen l k := by
  by_cases h : (a.kind == k && a.isOpen) = true <;>
    simp [countOpen, List.filter_cons, h, Nat.add_comm]

/-- Mapping a kind- and openness-preserving transform leaves the open
counts unchanged. -/
theorem countOpen_map_preserve (f : Alert → Alert)
    (hf : ∀ a, (f a).kind = a.kind ∧ (f a).isOpen = a.isOpen)
    (l : List Alert) (k : AlertKind) :
    countOpen (l.map f) k = countOpen l k := by
  induction l with
  | nil => rfl
  | cons a t ih =>
    rw [List.map_cons, countOpen_cons, countOpen_cons, ih, (hf a).1, (hf a).2]

/-- Refreshing open alerts of some kind changes no open count. -/
theorem countOpen_refreshOpen (l : List Alert) (k : AlertKind) (v : Int)
    (k' : AlertKind) : countOpen (refreshOpen l k v) k' = countOpen l k' := by
  refine countOpen_map_preserve _ ?_ l k'
  intro a
  constructor
  · split <;> rfl
  · simp only [Alert.isOpen]
    split <;> rfl

/-- Mapping a transform that only ever removes an alert from the open
set of a kind cannot increase the open counts. -/
theorem countOpen_map_le (f : Alert → Alert)
    (hf : ∀ a k, ((f a).kind == k && (f a).isOpen) = true →
      (a.kind == k && a.isOpen) = true)
    (l : List Alert) (k : AlertKind) :
    countOpen (l.map f) k ≤ countOpen l k := by
  induction l with
  | nil => exact Nat.le_refl 0
  | cons a t ih =>
    rw [List.map_cons, countOpen_cons, countOpen_cons]
    have hhead : (if ((f a).kind == k && (f a).isOpen) = true then 1 else 0) ≤
        (if (a.kind == k && a.isOpen) = true then 1 else 0) := by
      by_cases h : ((f a).kind == k && (f a).isOpen) = true
      · rw [if_pos h, if_pos (hf a k h)]
      · rw [if_neg h]
        exact Nat.zero_le _
    omega

/-- Closing alerts cannot increase any open count. -/
theorem countOpen_closeOpen_le (l : List Alert) (k : AlertKind) (t : Nat)
    (k' : AlertKind) : countOpen (closeOpen l k t) k' ≤ countOpen l k' := by
  refine countOpen_map_le _ ?_ l k'
  intro a kk h
  by_cases hc : (a.kind == k && a.isOpen) = true
  · rw [if_pos hc] at h
    simp [Alert.isOpen] at h
  · rw [if_neg hc] at h
    exact h

/-- If no open alert of a kind exists, its open count is zero. -/
theorem countOpen_eq_zero_of_hasOpen_false (l : List Alert) (k : AlertKind)
    (h : hasOpen l k = false) : countOpen l k = 0 := by
  induction l with
  | nil => rfl
  | cons a t ih =>
    simp only [hasOpen, List.any_cons, Bool.or_eq_false_iff] at h
    rw [countOpen_cons, if_neg (by simp [h.1]), Nat.zero_add]
    exact ih (by simpa [hasOpen] using h.2)

/-- Deduplicated opening preserves the at-most-one-open invariant. -/
theorem openAlertE_dedup (l : List Alert) (a : Alert)
    (hl : ∀ k, countOpen l k ≤ 1) :
    ∀ k, countOpen (openAlertE l a).1 k ≤ 1 := by
  intro k
  unfold openAlertE
  by_cases h : hasOpen l a.kind = true
  · rw [if_pos h]
    dsimp only
    rw [countOpen_refreshOpen]
    exact hl k
  · rw [if_neg h]
    dsimp only
    rw [countOpen_cons]
    by_cases hk : (a.kind == k && a.isOpen) = true
    · have hkk : a.kind = k := by
        have := (Bool.and_eq_true _ _).mp hk
        exact eq_of_beq this.1
      have h0 : countOpen l k = 0 := by
        refine countOpen_eq_zero_of_hasOpen_false l k ?_
        rw [← hkk]
        simpa using h
      rw [if_pos hk, h0]
    · rw [if_neg hk]
      simpa using hl k

set_option maxHeartbeats 1000000 in
/-- Processing an accepted reading preserves the at-most-one-open
invariant of the device's alert list. -/
theorem acceptReading_alerts_dedup (cfg : Config) (d : DeviceState)
    (r : Reading) (h : ∀ k, countOpen d.alerts k ≤ 1) :
    ∀ k, countOpen (acceptReading cfg d r).1.alerts k ≤ 1 := by
  intro k
  have hA0 : ∀ k', countOpen
      (closeOpenE d.alerts AlertKind.deviceOffline r.timestamp).1 k' ≤ 1 :=
    fun k' => Nat.le_trans (countOpen_closeOpen_le _ _ _ _) (h k')
  unfold acceptReading
  dsimp only
  split_ifs
  all_goals
    first
    | exact openAlertE_dedup _ _ (openAlertE_dedup _ _ hA0) k
    | exact openAlertE_dedup _ _
        (fun k' => Nat.le_trans (countOpen_closeOpen_le _ _ _ _) (hA0 k')) k
    | exact openAlertE_dedup _ _ hA0 k
    | exact Nat.le_trans (countOpen_closeOpen_le _ _ _ _) (hA0 k)
    | exact hA0 k

/-- The offline sweep preserves the at-most-one-open invariant of a
device's alert list. -/
theorem sweepDevice_dedup (cfg : Config) (now : Nat) (id : String)
    (d : DeviceState) (h : ∀ k, countOpen d.alerts k ≤ 1) :
    ∀ k, countOpen (sweepDevice cfg now id d).1.alerts k ≤ 1 := by
  intro k
  unfold sweepDevice
  split_ifs with ho
  · exact openAlertE_dedup _ _ h k
  · exact h k

/-- Every entry of a keyed update was in the original table or is the
new entry. -/
theorem mem_replaceOrInsert (l : List (String × DeviceState)) (id : String)
    (d : DeviceState) (x : String × DeviceState)
    (hx : x ∈ replaceOrInsert l id d) : x ∈ l ∨ x = (id, d) := by
  induction l with
  | nil =>
    simp only [replaceOrInsert, List.mem_singleton] at hx
    exact Or.inr hx
  | cons p rest ih =>
    rcases p with ⟨k, v⟩
    by_cases h : (k == id) = true
    · simp only [replaceOrInsert, if_pos h] at hx
      rcases List.mem_cons.mp hx with h1 | h1
      · exact Or.inr h1
      · exact Or.inl (List.mem_cons_of_mem _ h1)
    · simp only [replaceOrInsert, if_neg h] at hx
      rcases List.mem_cons.mp hx with h1 | h1
      · exact Or.inl (h1 ▸ List.mem_cons_self _ _)
      · rcases ih h1 with h2 | h2
        · exact Or.inl (List.mem_cons_of_mem _ h2)
        · exact Or.inr h2

/-- A successful lookup comes from an entry of the table. -/
theorem lookupList_mem (l : List (String × DeviceState)) (id : String)
    (d : DeviceState) (h : lookupList l id = some d) : ∃ k, (k, d) ∈ l := by
  unfold lookupList at h
  rcases hf : l.find? (fun p => p.1 == id) with _ | p
  · rw [hf] at h
    simp at h
  · rw [hf] at h
    simp only [Option.map_some'] at h
    have hp := List.mem_of_find?_eq_some hf
    refine ⟨p.1, ?_⟩
    have hd : p.2 = d := Option.some.inj h
    have hpair : (p.1, p.2) = p := rfl
    rw [← hd, hpair]
    exact hp

/-- A non-stale but non-monotonic reading is rejected with the state
unchanged. -/
theorem ingest_of_nonmono (cfg : Config) (s : EvalState) (r : Reading)
    (h1 : staleCheck ((lookupDevice s r.device).getD (freshDevice r)) r = false)
    (h2 : nonMonotonicCheck ((lookupDevice s r.device).getD (freshDevice r)) r
      = true) :
    ingest cfg s r = (s, Except.error IngestError.NonMonotonicReading) := by
  unfold ingest
  simp [h1, h2]

/-- Claim C3: in every reachable evaluator state, every device has at
most one open alert of each kind (leak, excessive-usage,
device-offline); and opening a kind that is already open only
refreshes the open alert — it adds no record and emits no event. -/
theorem at_most_one_open_alert_per_kind :
    (∀ (cfg : Config) (s : EvalState), Reachable cfg s →
      ∀ p ∈ s.devices, ∀ k, countOpen p.2.alerts k ≤ 1) ∧
    (∀ (l : List Alert) (a : Alert), hasOpen l a.kind = true →
      openAlertE l a = (refreshOpen l a.kind a.value, [])) := by
  constructor
  · intro cfg s hreach
    induction hreach with
    | init =>
      intro p hp
      simp [EvalState.initial] at hp
    | step s r hr ih =>
      intro p hp k
      by_cases h1 : staleCheck ((lookupDevice s r.device).getD (freshDevice r)) r
          = true
      · rw [ingest_of_stale cfg s r h1] at hp
        exact ih p hp k
      · have h1' : staleCheck ((lookupDevice s r.device).getD (freshDevice r)) r
            = false := by simpa using h1
        by_cases h2 : nonMonotonicCheck
            ((lookupDevice s r.device).getD (freshDevice r)) r = true
        · rw [ingest_of_nonmono cfg s r h1' h2] at hp
          exact ih p hp k
        · have h2' : nonMonotonicCheck
              ((lookupDevice s r.device).getD (freshDevice r)) r = false := by
            simpa using h2
          rw [ingest_of_accepted cfg s r h1' h2'] at hp
          rcases mem_replaceOrInsert _ _ _ p hp with hm | hm
          · exact ih p hm k
          · subst hm
            refine acceptReading_alerts_dedup cfg _ r ?_ k
            rcases hl : lookupDevice s r.device with _ | d0
            · intro k'
              exact Nat.le_of_lt_succ (by simp [freshDevice, countOpen])
            · intro k'
              rcases lookupList_mem s.devices r.device d0 hl with ⟨kk, hkk⟩
              exact ih (kk, d0) hkk k'
    | sweep s now hr ih =>
      intro p hp k
      have hp' : p ∈ s.devices.map
          (fun q => (q.1, (sweepDevice cfg now q.1 q.2).1)) := hp
      rcases List.mem_map.mp hp' with ⟨q, hq, hpq⟩
      rw [← hpq]
      exact sweepDevice_dedup cfg now q.1 q.2 (fun k' => ih q hq k') k
  · intro l a h
    unfold openAlertE
    rw [if_pos h]

/-- Claim C3 witness: D1 after its first reading has at most one open
leak alert, and opening a leak on a list that already holds an open
leak alert refreshes it without adding a record or emitting an
event. -/
theorem at_most_one_open_alert_per_kind_witness :
    countOpen d1M.alerts AlertKind.leak ≤ 1 ∧
    openAlertE [aLeakM] aLeakM =
      (refreshOpen [aLeakM] AlertKind.leak aLeakM.value, []) :=
  ⟨at_most_one_open_alert_per_kind.1 cfgM s1M
      (Reachable.step EvalState.initial (readingM 0) Reachable.init)
      ("D1", d1M) (by decide) AlertKind.leak,
   at_most_one_open_alert_per_kind.2 [aLeakM] aLeakM (by decide)⟩
